/-
Verification of the task-execution framework of the stagehand automation
repository: a shallow embedding of the retry protocol (BaseTask.execute),
the automation lifecycle (BaseAutomation.execute), the structured error
model (ErrorInfo / ExecutionResult), the notification fan-out
(NotificationManager.notify), the auto-registration registry
(BaseAutomation.__init_subclass__) and the CLI entry point (__main__.main),
together with proofs settling the specification claims about them.
-/
import Mathlib

/-- One entry of a task's retry history, mirroring the dict
`{"attempt": ..., "error_type": ..., "error_message": ...}` appended in
`BaseTask.execute` (src/automation/base/base_task.py, lines 95-101). -/
structure RetryRecord where
  attempt : Nat
  error_type : String
  error_message : String
deriving DecidableEq, Repr

/-- Values stored in the Python dict-valued fields the framework uses
(exception `context`, `execution_stats`, result `details`). -/
inductive CtxVal where
  | natV (n : Nat)
  | intV (z : Int)
  | strV (s : String)
  | boolV (b : Bool)
  | histV (h : List RetryRecord)
deriving DecidableEq, Repr

/-- Python `d[k] = v` on an insertion-ordered dict: replace the value at an
existing key in place, otherwise append the new binding at the end. -/
def dictInsert {α : Type} : List (String × α) → String → α → List (String × α)
  | [], k, v => [(k, v)]
  | p :: rest, k, v =>
    if p.1 = k then (k, v) :: rest else p :: dictInsert rest k v

/-- Python `d.get(k)`: the value at the first binding of `k`, if any. -/
def dictGet {α : Type} (d : List (String × α)) (k : String) : Option α :=
  (d.find? (fun p => p.1 = k)).map Prod.snd

/-- Shallow model of a raised Python exception.
`mro` lists the class names of `type(e)` and its bases, most derived first
(so `type(e).__qualname__` is the head). `shInfo` is `some (error_code,
context)` exactly when the exception is a `StagehandAutomationError`
(src/automation/exceptions.py): only those instances carry the structured
`error_code` / `context` attributes. `osInfo` is `some (errno, filename)`
exactly when the exception is an `OSError`. -/
structure Exc where
  mro : List String
  msg : String
  shInfo : Option (Option String × List (String × CtxVal))
  osInfo : Option (Option Int × Option String)
deriving DecidableEq, Repr

/-- `type(e).__qualname__`. -/
def Exc.qualname (e : Exc) : String := e.mro.headD ""

/-- `str(e)`: `StagehandAutomationError.__str__` prefixes the error code in
brackets when present; plain exceptions render their message. -/
def Exc.strOf (e : Exc) : String :=
  match e.shInfo with
  | some (some code, _) => "[" ++ code ++ "] " ++ e.msg
  | _ => e.msg

/-- `last_exception.context["retry_history"] = self.retry_history`
(base_task.py line 121), executed only when the exception
`isinstance(_, StagehandAutomationError)`; plain exceptions have no
`context` attribute and are left untouched. -/
def Exc.attachHistory (e : Exc) (h : List RetryRecord) : Exc :=
  match e.shInfo with
  | some (c, ctx) =>
      { e with shInfo := some (c, dictInsert ctx "retry_history" (CtxVal.histV h)) }
  | none => e

/-- `isinstance(e, tuple_of_classes)`: true when some listed class name is
among the classes of `e`. -/
def isinstanceAny (e : Exc) (ts : List String) : Bool :=
  ts.any (fun t => e.mro.contains t)

/-- The retry configuration of a `BaseTask`
(src/automation/base/base_task.py, `__init__`). -/
structure BaseTaskState where
  max_retries : Nat
  retry_delay : ℚ
  retry_on_exceptions : Option (List String)
deriving DecidableEq

/-- `BaseTask.should_retry` (base_task.py lines 63-75): retry every
exception when `retry_on_exceptions is None`, otherwise only instances of
the configured classes. -/
def should_retry (st : BaseTaskState) (e : Exc) : Bool :=
  match st.retry_on_exceptions with
  | none => true
  | some ts => isinstanceAny e ts

/-- Observable events of one `BaseTask.execute` run: each `await self.task()`
invocation (tagged with its 1-based attempt number) and each
`await asyncio.sleep(...)` with the slept amount. -/
inductive TaskEvent where
  | attemptEv (n : Nat)
  | sleepEv (d : ℚ)
deriving DecidableEq

/-- Outcome of one `BaseTask.execute` run: the exception propagated to the
caller (`none` = returned normally), the event trace, the final
`execution_stats` dict and the final `retry_history` list. -/
structure TaskExec where
  raised : Option Exc
  events : List TaskEvent
  stats : List (String × CtxVal)
  history : List RetryRecord
deriving DecidableEq

/-- The code after the retry loop when `last_exception` is set
(base_task.py lines 117-123): store the history in
`execution_stats["retry_history"]`, attach it to the exception's context
when it is a `StagehandAutomationError`, and re-raise. -/
def afterLoopFail (stats0 : List (String × CtxVal)) (hist : List RetryRecord)
    (evs : List TaskEvent) (e : Exc) : TaskExec :=
  { raised := some (e.attachHistory hist)
    events := evs
    stats := dictInsert stats0 "retry_history" (CtxVal.histV hist)
    history := hist }

/-- The `for attempt in range(1, max_retries + 1)` loop of
`BaseTask.execute` (base_task.py lines 83-123). `fuel` is the number of
remaining loop iterations, `attempt` the current attempt number, `work k`
the behaviour of `self.task()` on attempt `k` (`none` = returns,
`some e` = raises `e`). On success the function returns at once; on
failure it appends the history record, re-raises non-retryable errors
bare, breaks out to the post-loop code on the final attempt, and
otherwise sleeps `retry_delay` before the next attempt. -/
def execGo (st : BaseTaskState) (work : Nat → Option Exc)
    (stats0 : List (String × CtxVal)) :
    Nat → Nat → Option Exc → List RetryRecord → List TaskEvent → TaskExec
  | 0, _, lastExc, hist, evs =>
    match lastExc with
    | none => { raised := none, events := evs, stats := stats0, history := hist }
    | some e => afterLoopFail stats0 hist evs e
  | fuel + 1, attempt, _, hist, evs =>
    let evs1 := evs ++ [TaskEvent.attemptEv attempt]
    match work attempt with
    | none => { raised := none, events := evs1, stats := stats0, history := hist }
    | some e =>
      let hist1 := hist ++ [⟨attempt, e.qualname, e.msg⟩]
      if should_retry st e then
        if attempt = st.max_retries then
          afterLoopFail stats0 hist1 evs1 e
        else
          execGo st work stats0 fuel (attempt + 1) (some e) hist1
            (evs1 ++ [TaskEvent.sleepEv st.retry_delay])
      else
        { raised := some e, events := evs1, stats := stats0, history := hist1 }

/-- `BaseTask.execute` (base_task.py lines 77-123), run from a fresh task
whose `execution_stats` start as `stats0` and whose `retry_history` starts
empty: the loop runs for at most `max_retries` iterations starting at
attempt 1 with `last_exception = None`. -/
def BaseTask.execute (st : BaseTaskState) (work : Nat → Option Exc)
    (stats0 : List (String × CtxVal)) : TaskExec :=
  execGo st work stats0 st.max_retries 1 none [] []

/-- The attempt numbers of the `task()` invocations in an event trace. -/
def attemptsOf (evs : List TaskEvent) : List Nat :=
  evs.filterMap (fun ev => match ev with
    | TaskEvent.attemptEv n => some n
    | _ => none)

/-- The amounts slept in an event trace. -/
def sleepsOf (evs : List TaskEvent) : List ℚ :=
  evs.filterMap (fun ev => match ev with
    | TaskEvent.sleepEv d => some d
    | _ => none)

/-- The retry-history records produced by `n` consecutive failures of the
same error starting at attempt `a`. -/
def failRecords (e : Exc) : Nat → Nat → List RetryRecord
  | _, 0 => []
  | a, n + 1 => ⟨a, e.qualname, e.msg⟩ :: failRecords e (a + 1) n

/-- The event trace of `n` consecutive retryable failures starting at
attempt `a`: an attempt, then (except after the last one) a backoff sleep
of `d` before the next. -/
def failEvents (d : ℚ) : Nat → Nat → List TaskEvent
  | _, 0 => []
  | a, n + 1 =>
    TaskEvent.attemptEv a ::
      (if n = 0 then [] else TaskEvent.sleepEv d :: failEvents d (a + 1) n)

/-- The `"retry_history"` entry of an exception's context, when the
exception carries a context map at all. -/
def ctxRetryHistory (e : Exc) : Option CtxVal :=
  e.shInfo.bind (fun p => dictGet p.2 "retry_history")

/-- `ErrorInfo` (src/automation/base/execution_result.py, lines 11-24). -/
structure ErrorInfo where
  message : String
  error_code : Option String
  error_type : String
  location : String
  stack_trace : String
  context : List (String × CtxVal)
deriving DecidableEq

/-- `ErrorInfo.from_exception` (execution_result.py lines 26-68): copy
`error_code` / `context` through for `StagehandAutomationError` instances,
enrich the context with `errno` / `filename` for `OSError` instances, and
record message, qualified type name, source location and trace text (the
latter two are runtime traceback data, passed in here). -/
def ErrorInfo.from_exception (exc : Exc) (location stack_trace : String) : ErrorInfo :=
  let ec : Option String :=
    match exc.shInfo with
    | some (c, _) => c
    | none => none
  let ctx0 : List (String × CtxVal) :=
    match exc.shInfo with
    | some (_, ctx) => ctx
    | none => []
  let ctx1 : List (String × CtxVal) :=
    match exc.osInfo with
    | some (errno?, file?) =>
        let cA := match errno? with
          | some n => dictInsert ctx0 "errno" (CtxVal.intV n)
          | none => ctx0
        match file? with
        | some f => dictInsert cA "filename" (CtxVal.strV f)
        | none => cA
    | none => ctx0
  { message := exc.strOf
    error_code := ec
    error_type := exc.qualname
    location := location
    stack_trace := stack_trace
    context := ctx1 }

/-- `ExecutionResult` (execution_result.py lines 71-81); timestamps are
abstracted to naturals. -/
structure ExecutionResult where
  task_name : String
  success : Bool
  error_message : Option String
  details : List (String × CtxVal)
  start_time : Nat
  end_time : Option Nat
  error_info : Option ErrorInfo
deriving DecidableEq

/-- A freshly constructed `ExecutionResult(task_name=...)` with all the
dataclass defaults: success `True`, no error, empty details, no end time. -/
def ExecutionResult.mkFresh (name : String) (start : Nat) : ExecutionResult :=
  { task_name := name
    success := true
    error_message := none
    details := []
    start_time := start
    end_time := none
    error_info := none }

/-- `ExecutionResult.add_detail` (execution_result.py lines 83-91). -/
def ExecutionResult.add_detail (r : ExecutionResult) (k : String) (v : CtxVal) :
    ExecutionResult :=
  { r with details := dictInsert r.details k v }

/-- `ExecutionResult.set_error` (execution_result.py lines 102-113):
sets `success = False`, the backward-compatible `error_message = str(exc)`
and the structured `error_info` together. -/
def ExecutionResult.set_error (r : ExecutionResult) (exc : Exc) (loc tb : String) :
    ExecutionResult :=
  { r with
    success := false
    error_message := some exc.strOf
    error_info := some (ErrorInfo.from_exception exc loc tb) }

/-- `ExecutionResult.get_error_summary` (execution_result.py lines 115-134). -/
def ExecutionResult.get_error_summary (r : ExecutionResult) : String :=
  match r.error_info with
  | none =>
    match r.error_message with
    | some m => m
    | none => "Unknown error"
  | some info =>
    let parts : List String :=
      (match info.error_code with
       | some c => ["[" ++ c ++ "]"]
       | none => []) ++
      (if info.error_type = "" then [] else ["(" ++ info.error_type ++ ")"]) ++
      [info.message]
    String.intercalate " " parts

/-- The mutating operations the framework performs on an
`ExecutionResult` after construction. -/
inductive ROp where
  | addDetail (k : String) (v : CtxVal)
  | setError (e : Exc) (loc tb : String)

/-- Apply one public `ExecutionResult` operation. -/
def applyROp (r : ExecutionResult) : ROp → ExecutionResult
  | ROp.addDetail k v => r.add_detail k v
  | ROp.setError e loc tb => r.set_error e loc tb

/-- Outcome of one `BaseAutomation.execute` run: the exception propagated
to the caller (`none` = returned normally), the returned value when one
was returned, the number of `stagehand.init()` and `stagehand.close()`
invocations, and the final state of `self.execution_result`. -/
structure AutoExec where
  raised : Option Exc
  returned : Option ExecutionResult
  initCalls : Nat
  closeCalls : Nat
  result : ExecutionResult
deriving DecidableEq

/-- `BaseAutomation.execute` (src/automation/base/base_automation.py,
lines 84-99) run on a fresh instance (`stagehand = None`,
`_stagehand_initialized = False`, `execution_result = r0`).
`initO` is the outcome of `stagehand.init()` inside `__init_stagehand`
(`some e` = raises), `autoRun` the behaviour of the abstract
`automation()` (it may mutate the result, then return or raise), and
`closeO` the outcome of `stagehand.close()` inside `__close_stagehand`.
The try body runs init then `automation()`; the except clause converts
any exception into `set_error` on the result; the finally clause sets
`end_time` and calls `__close_stagehand()`, whose guard
`if self.stagehand and self._stagehand_initialized` skips the close
call when init failed. The finally clause does not guard the close call,
so an exception from `close()` propagates out of `execute` and the
result is not returned. -/
def BaseAutomation.execute (r0 : ExecutionResult) (tEnd : Nat) (initO : Option Exc)
    (autoRun : ExecutionResult → ExecutionResult × Option Exc)
    (loc tb : String) (closeO : Option Exc) : AutoExec :=
  match initO with
  | some e =>
    let r1 := (r0.set_error e loc tb)
    let r2 := { r1 with end_time := some tEnd }
    { raised := none, returned := some r2, initCalls := 1, closeCalls := 0,
      result := r2 }
  | none =>
    let ra := autoRun r0
    let r1 := match ra.2 with
      | some e => ra.1.set_error e loc tb
      | none => ra.1
    let r2 := { r1 with end_time := some tEnd }
    match closeO with
    | some c =>
      { raised := some c, returned := none, initCalls := 1, closeCalls := 1,
        result := r2 }
    | none =>
      { raised := none, returned := some r2, initCalls := 1, closeCalls := 1,
        result := r2 }

/-- The task-name derivation of `BaseAutomation.__init_subclass__`
(base_automation.py line 34): the regex substitution
`re.sub(r"(?<!^)(?=[A-Z])", "_", cls.__name__).lower()` inserts an
underscore before every upper-case letter except at the start, then
lower-cases everything. -/
def deriveTaskName (s : String) : String :=
  match s.toList with
  | [] => ""
  | c :: rest =>
    String.mk
      ((c :: rest.flatMap (fun d => if d.isUpper then ['_', d] else [d])).map
        Char.toLower)

/-- `cls._registry[task_name] = cls` in `BaseAutomation.__init_subclass__`
(base_automation.py lines 17-36); classes are identified by a numeric id.
There is no duplicate check: an existing binding of the derived key is
silently overwritten. -/
def registerAutomation (reg : List (String × Nat)) (clsName : String) (cls : Nat) :
    List (String × Nat) :=
  dictInsert reg (deriveTaskName clsName) cls

/-- Behaviour of one channel's `send_notification(result)` call: return a
boolean or raise. -/
inductive SendRes where
  | ret (b : Bool)
  | exn (e : Exc)
deriving DecidableEq

/-- The per-channel loop of `NotificationManager.notify`
(src/automation/notification/notification_manager.py, lines 66-75):
a `True` return increments the tally, a `False` return does not, and a
raised exception is caught by the per-channel `except` clause (logged)
and does not stop the loop. -/
def notifyLoop : List SendRes → Nat → Nat
  | [], acc => acc
  | SendRes.ret true :: rest, acc => notifyLoop rest (acc + 1)
  | SendRes.ret false :: rest, acc => notifyLoop rest acc
  | SendRes.exn _ :: rest, acc => notifyLoop rest acc

/-- Outcome of one `NotificationManager.notify` call: the exception
propagated to the caller (`none` = returned normally), whether the
empty-channel early return was taken, and the aggregate
`succeeded/total` tally that is logged (`none` when the early return
skipped it). -/
structure NotifyOut where
  raised : Option Exc
  skipped : Bool
  aggregateLog : Option (Nat × Nat)
deriving DecidableEq

/-- `NotificationManager.notify` (notification_manager.py lines 55-78),
with `sends` the behaviour of each enabled channel in discovery order:
return immediately when no channels are enabled, otherwise run the
tallying loop (whose `except` clause absorbs every per-channel
exception) and log `success_count/total`. -/
def NotificationManager.notify (sends : List SendRes) : NotifyOut :=
  if sends.isEmpty then
    { raised := none, skipped := true, aggregateLog := none }
  else
    { raised := none, skipped := false,
      aggregateLog := some (notifyLoop sends 0, sends.length) }

/-- Behaviour of `automation.execute()` as observed by
`AutomationApp.run_automation`: return an `ExecutionResult.success`
value, or raise. -/
inductive RunRes where
  | ret (success : Bool)
  | exn (e : Exc)
deriving DecidableEq

/-- The process exit code of `python -m automation <arg>`
(src/automation/__main__.py, lines 34-52, plus the documented behaviour of
`argparse` for the `choices=AutomationApp.get_available_tasks()` argument:
`parse_args` with a value outside `choices` prints a usage error listing
the valid choices and exits the process with status 2, before `main`'s
try block runs). For a valid choice, `run_automation` looks the name up
in the registry (a miss raises `ValueError`, caught by `main`'s
`except Exception` giving exit 1); otherwise `main` returns `0` when the
result was successful and `1` when it was not or the run raised. -/
def mainExitCode (registry : List (String × Nat)) (arg : String)
    (execOutcome : Nat → RunRes) : Nat :=
  if (registry.map Prod.fst).contains arg then
    match dictGet registry arg with
    | none => 1
    | some cls =>
      match execOutcome cls with
      | RunRes.ret true => 0
      | RunRes.ret false => 1
      | RunRes.exn _ => 1
  else 2

/-- The keys of a dict, in insertion order. -/
def keysOf {α : Type} (d : List (String × α)) : List String := d.map Prod.fst

lemma dictGet_dictInsert {α : Type} (d : List (String × α)) (k : String) (v : α) :
    dictGet (dictInsert d k v) k = some v := by
  induction d with
  | nil => simp [dictInsert, dictGet, List.find?]
  | cons p rest ih =>
    by_cases h : p.1 = k
    · simp [dictInsert, h, dictGet, List.find?]
    · simpa [dictInsert, h, dictGet, List.find?] using ih

lemma mem_keysOf_dictInsert {α : Type} (d : List (String × α)) (k x : String) (v : α)
    (hx : x ∈ keysOf (dictInsert d k v)) : x ∈ keysOf d ∨ x = k := by
  induction d with
  | nil => simpa [dictInsert, keysOf] using hx
  | cons p rest ih =>
    by_cases h : p.1 = k
    · simp only [dictInsert, if_pos h, keysOf, List.map_cons, List.mem_cons] at hx ⊢
      rcases hx with hx | hx
      · right; exact hx
      · left; right; exact hx
    · simp only [dictInsert, if_neg h, keysOf, List.map_cons, List.mem_cons] at hx ⊢
      rcases hx with hx | hx
      · left; left; exact hx
      · rcases ih hx with h2 | h2
        · left; right; exact h2
        · right; exact h2

lemma nodup_keysOf_dictInsert {α : Type} (d : List (String × α)) (k : String) (v : α)
    (h : (keysOf d).Nodup) : (keysOf (dictInsert d k v)).Nodup := by
  induction d with
  | nil => simp [dictInsert, keysOf]
  | cons p rest ih =>
    simp only [keysOf, List.map_cons, List.nodup_cons] at h
    by_cases hp : p.1 = k
    · simp only [dictInsert, if_pos hp, keysOf, List.map_cons, List.nodup_cons]
      exact ⟨hp ▸ h.1, h.2⟩
    · simp only [dictInsert, if_neg hp, keysOf, List.map_cons, List.nodup_cons]
      refine ⟨fun hmem => ?_, ih h.2⟩
      rcases mem_keysOf_dictInsert rest k p.1 v hmem with h2 | h2
      · exact h.1 h2
      · exact hp h2

lemma attemptsOf_append (xs ys : List TaskEvent) :
    attemptsOf (xs ++ ys) = attemptsOf xs ++ attemptsOf ys := by
  simp [attemptsOf, List.filterMap_append]

lemma sleepsOf_append (xs ys : List TaskEvent) :
    sleepsOf (xs ++ ys) = sleepsOf xs ++ sleepsOf ys := by
  simp [sleepsOf, List.filterMap_append]

lemma length_failRecords (e : Exc) : ∀ a n, (failRecords e a n).length = n := by
  intro a n
  induction n generalizing a with
  | zero => simp [failRecords]
  | succ m ih => simp [failRecords, ih]

lemma map_attempt_failRecords (e : Exc) :
    ∀ n a, (failRecords e a n).map RetryRecord.attempt = List.range' a n := by
  intro n
  induction n with
  | zero => intro a; simp [failRecords]
  | succ m ih =>
    intro a
    simp only [failRecords, List.map_cons, ih (a + 1), List.range'_succ]

lemma failRecords_succ_left (e : Exc) (a n : Nat) :
    failRecords e a (n + 1) = ⟨a, e.qualname, e.msg⟩ :: failRecords e (a + 1) n := rfl

lemma failEvents_one (d : ℚ) (a : Nat) :
    failEvents d a 1 = [TaskEvent.attemptEv a] := by
  simp [failEvents]

lemma failEvents_succ_succ (d : ℚ) (a n : Nat) :
    failEvents d a (n + 2) =
      TaskEvent.attemptEv a :: TaskEvent.sleepEv d :: failEvents d (a + 1) (n + 1) := by
  simp [failEvents]

lemma attemptsOf_failEvents (d : ℚ) :
    ∀ n a, attemptsOf (failEvents d a n) = List.range' a n := by
  intro n
  induction n with
  | zero => intro a; simp [failEvents, attemptsOf]
  | succ m ih =>
    intro a
    cases m with
    | zero => simp [failEvents, attemptsOf]
    | succ m2 =>
      rw [failEvents_succ_succ]
      have ih2 := ih (a + 1)
      simp only [attemptsOf, List.filterMap_cons] at ih2 ⊢
      rw [List.range'_succ]
      simpa using ih2

lemma sleepsOf_failEvents (d : ℚ) :
    ∀ n a, sleepsOf (failEvents d a (n + 1)) = List.replicate n d := by
  intro n
  induction n with
  | zero => intro a; simp [failEvents, sleepsOf]
  | succ m ih =>
    intro a
    rw [failEvents_succ_succ]
    have ih2 := ih (a + 1)
    simp only [sleepsOf, List.filterMap_cons] at ih2 ⊢
    rw [List.replicate_succ]
    simpa using ih2

/-- Running the retry loop on work that fails on every attempt with the
same retryable error reaches the post-loop failure code with one history
record and one attempt event per remaining iteration, and a backoff sleep
of `retry_delay` between consecutive attempts. -/
lemma execGo_succ (st : BaseTaskState) (work : Nat → Option Exc)
    (stats0 : List (String × CtxVal)) (fuel attempt : Nat) (lastExc : Option Exc)
    (hist : List RetryRecord) (evs : List TaskEvent) :
    execGo st work stats0 (fuel + 1) attempt lastExc hist evs =
      match work attempt with
      | none =>
        { raised := none, events := evs ++ [TaskEvent.attemptEv attempt],
          stats := stats0, history := hist }
      | some e =>
        if should_retry st e then
          if attempt = st.max_retries then
            afterLoopFail stats0 (hist ++ [⟨attempt, e.qualname, e.msg⟩])
              (evs ++ [TaskEvent.attemptEv attempt]) e
          else
            execGo st work stats0 fuel (attempt + 1) (some e)
              (hist ++ [⟨attempt, e.qualname, e.msg⟩])
              ((evs ++ [TaskEvent.attemptEv attempt]) ++
                [TaskEvent.sleepEv st.retry_delay])
        else
          { raised := some e, events := evs ++ [TaskEvent.attemptEv attempt],
            stats := stats0, history := hist ++ [⟨attempt, e.qualname, e.msg⟩] } :=
  rfl

lemma execGo_allfail (st : BaseTaskState) (stats0 : List (String × CtxVal)) (e : Exc)
    (hre : should_retry st e = true) :
    ∀ fuel attempt lastExc hist evs, 1 ≤ fuel →
      attempt + fuel = st.max_retries + 1 →
      execGo st (fun _ => some e) stats0 fuel attempt lastExc hist evs =
        afterLoopFail stats0 (hist ++ failRecords e attempt fuel)
          (evs ++ failEvents st.retry_delay attempt fuel) e := by
  intro fuel
  induction fuel with
  | zero => intro attempt lastExc hist evs h1 h2; omega
  | succ f ih =>
    intro attempt lastExc hist evs h1 h2
    cases f with
    | zero =>
      have ha : attempt = st.max_retries := by omega
      rw [execGo_succ]
      simp [hre, ha, failRecords, failEvents]
    | succ f2 =>
      have ha : ¬(attempt = st.max_retries) := by omega
      rw [execGo_succ]
      simp only [hre, if_true, if_neg ha]
      rw [ih (attempt + 1) (some e) _ _ (by omega) (by omega)]
      rw [failRecords_succ_left, failEvents_succ_succ]
      simp [failRecords, List.append_assoc]

/-- Every backoff sleep the retry loop performs (beyond those already in
the accumulated trace) is of the constant `retry_delay`. -/
lemma execGo_sleeps (st : BaseTaskState) (work : Nat → Option Exc)
    (stats0 : List (String × CtxVal)) :
    ∀ fuel attempt lastExc hist evs q,
      q ∈ sleepsOf (execGo st work stats0 fuel attempt lastExc hist evs).events →
      q ∈ sleepsOf evs ∨ q = st.retry_delay := by
  intro fuel
  induction fuel with
  | zero =>
    intro attempt lastExc hist evs q hq
    cases lastExc with
    | none => exact Or.inl hq
    | some e => exact Or.inl hq
  | succ f ih =>
    intro attempt lastExc hist evs q hq
    simp only [execGo] at hq
    cases hw : work attempt with
    | none =>
      rw [hw] at hq
      simp only [sleepsOf_append] at hq
      rcases List.mem_append.mp hq with h | h
      · exact Or.inl h
      · simp [sleepsOf] at h
    | some e =>
      rw [hw] at hq
      by_cases hr : should_retry st e
      · by_cases ha : attempt = st.max_retries
        · simp only [if_pos hr, if_pos ha, afterLoopFail, sleepsOf_append] at hq
          rcases List.mem_append.mp hq with h | h
          · exact Or.inl h
          · simp [sleepsOf] at h
        · simp only [if_pos hr, if_neg ha] at hq
          rcases ih _ _ _ _ q hq with h | h
          · simp only [sleepsOf_append] at h
            rcases List.mem_append.mp h with h2 | h2
            · rcases List.mem_append.mp h2 with h3 | h3
              · exact Or.inl h3
              · simp [sleepsOf] at h3
            · simp only [sleepsOf, List.filterMap_cons] at h2
              simp at h2
              exact Or.inr h2
          · exact Or.inr h
      · simp only [if_neg hr, sleepsOf_append] at hq
        rcases List.mem_append.mp hq with h | h
        · exact Or.inl h
        · simp [sleepsOf] at h

/-- A plain `ValueError("boom")`: retryable under the default policy but
not a `StagehandAutomationError`, so it carries no `context` attribute. -/
def plainBoom : Exc :=
  { mro := ["ValueError", "Exception"], msg := "boom", shInfo := none, osInfo := none }

/-- A `LoginError("login failed", error_code="E1001")` domain error with an
empty initial context map. -/
def loginBoom : Exc :=
  { mro := ["LoginError", "StagehandAutomationError", "Exception"],
    msg := "login failed", shInfo := some (some "E1001", []), osInfo := none }

/-- Work that fails on attempts 1 and 2 and succeeds from attempt 3 on. -/
def failTwiceWork : Nat → Option Exc :=
  fun k => if k ≤ 2 then some plainBoom else none

/-- Claim C1 (amended): for every `max_retries = N ≥ 1`, running
`BaseTask.execute` on work that fails on every attempt with the same
error the retry policy deems retryable performs exactly attempts
`1..N` in order, raises at the end, accumulates exactly `N` retry-history
entries `{attempt, error_type, error_message}` ordered by attempt number,
and stores that history under `execution_stats["retry_history"]`; the
history is attached under the raised error's context key
`"retry_history"` exactly when the error is a `StagehandAutomationError`
(the only exceptions that carry a context map). -/
theorem C1_always_failing_retryable_task (st : BaseTaskState) (e : Exc)
    (stats0 : List (String × CtxVal))
    (hN : 1 ≤ st.max_retries) (hre : should_retry st e = true) :
    attemptsOf (BaseTask.execute st (fun _ => some e) stats0).events =
      List.range' 1 st.max_retries ∧
    (BaseTask.execute st (fun _ => some e) stats0).history =
      failRecords e 1 st.max_retries ∧
    (BaseTask.execute st (fun _ => some e) stats0).history.length =
      st.max_retries ∧
    (BaseTask.execute st (fun _ => some e) stats0).history.map
      RetryRecord.attempt = List.range' 1 st.max_retries ∧
    (BaseTask.execute st (fun _ => some e) stats0).raised =
      some (e.attachHistory (failRecords e 1 st.max_retries)) ∧
    dictGet (BaseTask.execute st (fun _ => some e) stats0).stats
      "retry_history" = some (CtxVal.histV (failRecords e 1 st.max_retries)) ∧
    (e.shInfo.isSome = true →
      ctxRetryHistory (e.attachHistory (failRecords e 1 st.max_retries)) =
        some (CtxVal.histV (failRecords e 1 st.max_retries))) := by
  have key := execGo_allfail st stats0 e hre st.max_retries 1 none [] [] hN
    (by omega)
  unfold BaseTask.execute
  rw [key]
  refine ⟨?_, ?_, ?_, ?_, ?_, ?_, ?_⟩
  · simp [afterLoopFail, attemptsOf_failEvents]
  · simp [afterLoopFail]
  · simp [afterLoopFail, length_failRecords]
  · simp [afterLoopFail, map_attempt_failRecords]
  · simp [afterLoopFail]
  · simp [afterLoopFail, dictGet_dictInsert]
  · intro hsome
    rcases hsh : e.shInfo with _ | ⟨c, ctx⟩
    · rw [hsh] at hsome; simp at hsome
    · simp [Exc.attachHistory, hsh, ctxRetryHistory, dictGet_dictInsert]

/-- Witness for C1 at `max_retries = 2` with an always-failing
`LoginError`: two history entries, and the raised error's context holds
them. -/
theorem C1_witness :
    (BaseTask.execute ⟨2, 1, none⟩ (fun _ => some loginBoom) []).history.length = 2 ∧
    ctxRetryHistory (loginBoom.attachHistory (failRecords loginBoom 1 2)) =
      some (CtxVal.histV (failRecords loginBoom 1 2)) :=
  ⟨(C1_always_failing_retryable_task ⟨2, 1, none⟩ loginBoom [] (by decide)
      (by decide)).2.2.1,
   (C1_always_failing_retryable_task ⟨2, 1, none⟩ loginBoom [] (by decide)
      (by decide)).2.2.2.2.2.2 (by decide)⟩

/-- Claim C1 as stated is false on the code: with `max_retries = 1` and
work always failing with a retryable plain `ValueError`, `execute` does
perform one attempt but the error finally raised is the bare `ValueError`,
which has no `context` attribute at all — so its context does not carry
`N = 1` retry-history entries (the history lands only in
`execution_stats`; `base_task.py` attaches context history only to
`StagehandAutomationError` instances). -/
theorem C1_counterexample :
    attemptsOf (BaseTask.execute ⟨1, 1, none⟩ (fun _ => some plainBoom) []).events =
      [1] ∧
    (BaseTask.execute ⟨1, 1, none⟩ (fun _ => some plainBoom) []).raised =
      some plainBoom ∧
    plainBoom.shInfo = none ∧
    ctxRetryHistory plainBoom = none := by
  decide

/-- Claim C2 (amended): the delay slept before each retry is the constant
`retry_delay` — `base_task.py` line 115 sleeps `self.retry_delay`, with no
exponential factor; with `max_retries = 3`, `retry_delay = 2.0` and work
failing twice then succeeding, the total backoff slept is `2 + 2 = 4`
seconds, the run succeeds, and the 2-entry retry history is not stored in
`execution_stats` (the success path returns before the post-loop code). -/
theorem C2_constant_backoff :
    (∀ (st : BaseTaskState) (work : Nat → Option Exc)
        (stats0 : List (String × CtxVal)) (q : ℚ),
        q ∈ sleepsOf (BaseTask.execute st work stats0).events →
        q = st.retry_delay) ∧
    sleepsOf (BaseTask.execute ⟨3, 2, none⟩ failTwiceWork []).events = [2, 2] ∧
    (sleepsOf (BaseTask.execute ⟨3, 2, none⟩ failTwiceWork []).events).sum = 4 ∧
    (BaseTask.execute ⟨3, 2, none⟩ failTwiceWork []).raised = none ∧
    (BaseTask.execute ⟨3, 2, none⟩ failTwiceWork []).history.length = 2 ∧
    dictGet (BaseTask.execute ⟨3, 2, none⟩ failTwiceWork []).stats
      "retry_history" = none := by
  refine ⟨?_, by decide, ?_, by decide, by decide, by decide⟩
  · intro st work stats0 q hq
    rcases execGo_sleeps st work stats0 st.max_retries 1 none [] [] q hq with h | h
    · simp [sleepsOf] at h
    · exact h
  · rw [show sleepsOf (BaseTask.execute ⟨3, 2, none⟩ failTwiceWork []).events =
        [2, 2] from by decide]
    norm_num

/-- Witness for C2: in the scenario run, the backoff slept between the
first and second attempt is the configured `retry_delay = 2`. -/
theorem C2_witness :
    (2 : ℚ) = (⟨3, 2, none⟩ : BaseTaskState).retry_delay :=
  C2_constant_backoff.1 ⟨3, 2, none⟩ failTwiceWork [] 2 (by decide)

/-- Claim C2 as stated is false on the code: in the scenario
`max_retries = 3`, `retry_delay = 2.0`, work failing twice then
succeeding, the delay slept before attempt 3 (the `k = 2` retry) is `2`,
not `retry_delay * 2^(2-1) = 4`, and the total backoff slept is `4 < 6`
seconds. -/
theorem C2_counterexample :
    (sleepsOf (BaseTask.execute ⟨3, 2, none⟩ failTwiceWork []).events)[1]? =
      some 2 ∧
    ((2 : ℚ) ≠ 2 * 2 ^ (2 - 1)) ∧
    ¬(6 ≤ (sleepsOf (BaseTask.execute ⟨3, 2, none⟩ failTwiceWork []).events).sum) := by
  refine ⟨by decide, by norm_num, ?_⟩
  rw [show sleepsOf (BaseTask.execute ⟨3, 2, none⟩ failTwiceWork []).events =
      [2, 2] from by decide]
  simp
  norm_num

/-- Claim C8 (amended): with `max_retries = 1`, `BaseTask.execute`
performs exactly one attempt, never sleeps, and a failing attempt's error
surfaces immediately (attached with the 1-entry history when the loop
exhausts retryably, bare when non-retryable); with `max_retries = 0` the
`range(1, 1)` loop body never runs: zero attempts, no sleep, and `execute`
returns without error even when the work would fail. -/
theorem C8_zero_or_one_retries :
    (∀ (st : BaseTaskState) (work : Nat → Option Exc)
        (stats0 : List (String × CtxVal)),
      st.max_retries = 0 →
      BaseTask.execute st work stats0 =
        { raised := none, events := [], stats := stats0, history := [] }) ∧
    (∀ (st : BaseTaskState) (work : Nat → Option Exc)
        (stats0 : List (String × CtxVal)),
      st.max_retries = 1 → work 1 = none →
      BaseTask.execute st work stats0 =
        { raised := none, events := [TaskEvent.attemptEv 1], stats := stats0,
          history := [] }) ∧
    (∀ (st : BaseTaskState) (work : Nat → Option Exc)
        (stats0 : List (String × CtxVal)) (e : Exc),
      st.max_retries = 1 → work 1 = some e → should_retry st e = true →
      BaseTask.execute st work stats0 =
        afterLoopFail stats0 [⟨1, e.qualname, e.msg⟩] [TaskEvent.attemptEv 1] e) ∧
    (∀ (st : BaseTaskState) (work : Nat → Option Exc)
        (stats0 : List (String × CtxVal)) (e : Exc),
      st.max_retries = 1 → work 1 = some e → should_retry st e = false →
      BaseTask.execute st work stats0 =
        { raised := some e, events := [TaskEvent.attemptEv 1], stats := stats0,
          history := [⟨1, e.qualname, e.msg⟩] }) := by
  refine ⟨?_, ?_, ?_, ?_⟩
  · intro st work stats0 hm
    unfold BaseTask.execute
    rw [hm]
    simp [execGo]
  · intro st work stats0 hm hw
    unfold BaseTask.execute
    rw [hm, execGo_succ, hw]
    simp
  · intro st work stats0 e hm hw hre
    unfold BaseTask.execute
    rw [hm, execGo_succ, hw]
    simp [hre, hm]
  · intro st work stats0 e hm hw hre
    unfold BaseTask.execute
    rw [hm, execGo_succ, hw]
    simp [hre]

/-- Witness for C8, covering all four cases at concrete inputs. -/
theorem C8_witness :
    BaseTask.execute ⟨0, 1, none⟩ (fun _ => none) [] =
      { raised := none, events := [], stats := [], history := [] } ∧
    BaseTask.execute ⟨1, 1, none⟩ (fun _ => none) [] =
      { raised := none, events := [TaskEvent.attemptEv 1], stats := [],
        history := [] } ∧
    BaseTask.execute ⟨1, 1, none⟩ (fun _ => some plainBoom) [] =
      afterLoopFail [] [⟨1, plainBoom.qualname, plainBoom.msg⟩]
        [TaskEvent.attemptEv 1] plainBoom ∧
    BaseTask.execute ⟨1, 1, some ["TimeoutError"]⟩ (fun _ => some plainBoom) [] =
      { raised := some plainBoom, events := [TaskEvent.attemptEv 1], stats := [],
        history := [⟨1, plainBoom.qualname, plainBoom.msg⟩] } :=
  ⟨C8_zero_or_one_retries.1 ⟨0, 1, none⟩ (fun _ => none) [] rfl,
   C8_zero_or_one_retries.2.1 ⟨1, 1, none⟩ (fun _ => none) [] rfl rfl,
   C8_zero_or_one_retries.2.2.1 ⟨1, 1, none⟩ (fun _ => some plainBoom) [] plainBoom
     rfl rfl (by decide),
   C8_zero_or_one_retries.2.2.2 ⟨1, 1, some ["TimeoutError"]⟩
     (fun _ => some plainBoom) [] plainBoom rfl rfl (by decide)⟩

/-- Claim C8 as stated is false on the code for `max_retries = 0`: with
work that always fails, `BaseTask.execute` performs zero attempts (no
`task()` invocation at all), and no failure surfaces — it returns
normally, because `range(1, 0 + 1)` is empty. -/
theorem C8_counterexample :
    BaseTask.execute ⟨0, 1, none⟩ (fun _ => some plainBoom) [] =
      { raised := none, events := [], stats := [], history := [] } := by
  decide

/-- Claim C9 (amended): for every `max_retries ≥ 1`, when attempt 1 fails
with an error the policy deems non-retryable, `BaseTask.execute` performs
exactly one attempt and re-raises that error immediately and unmodified —
no backoff sleep, no further attempts, and no history attachment (the
bare `raise` at base_task.py line 104 skips the post-loop code). For
`max_retries = 0` the work is never attempted at all (see the
counterexample), which is why the bound is required. -/
theorem C9_non_retryable_single_attempt (st : BaseTaskState)
    (work : Nat → Option Exc) (stats0 : List (String × CtxVal)) (e : Exc)
    (hN : 1 ≤ st.max_retries) (hw : work 1 = some e)
    (hre : should_retry st e = false) :
    BaseTask.execute st work stats0 =
      { raised := some e, events := [TaskEvent.attemptEv 1], stats := stats0,
        history := [⟨1, e.qualname, e.msg⟩] } := by
  obtain ⟨f, hf⟩ : ∃ f, st.max_retries = f + 1 := ⟨st.max_retries - 1, by omega⟩
  unfold BaseTask.execute
  rw [hf, execGo_succ, hw]
  simp [hre]

/-- Witness for C9: a `ValueError` under a policy that only retries
`TimeoutError`, with `max_retries = 5`. -/
theorem C9_witness :
    BaseTask.execute ⟨5, 1, some ["TimeoutError"]⟩ (fun _ => some plainBoom) [] =
      { raised := some plainBoom, events := [TaskEvent.attemptEv 1], stats := [],
        history := [⟨1, plainBoom.qualname, plainBoom.msg⟩] } :=
  C9_non_retryable_single_attempt ⟨5, 1, some ["TimeoutError"]⟩
    (fun _ => some plainBoom) [] plainBoom (by decide) rfl (by decide)

/-- Claim C9 as stated ("for every max_retries") is false on the code at
`max_retries = 0`: the policy deems the `ValueError` non-retryable, yet
`execute` performs zero attempts — not one — and nothing is raised. -/
theorem C9_counterexample :
    should_retry ⟨0, 1, some ["TimeoutError"]⟩ plainBoom = false ∧
    BaseTask.execute ⟨0, 1, some ["TimeoutError"]⟩ (fun _ => some plainBoom) [] =
      { raised := none, events := [], stats := [], history := [] } := by
  decide

/-- Claim C3 (confirmed): in every `BaseAutomation.execute` run in which
the session was initialized (so that `automation()` runs at all —
covering `automation()` returning normally, raising a domain error, or
raising an unexpected error, over every possible `autoRun`), the
driver-session release `stagehand.close()` is invoked exactly once, on
every exit path, including when `close()` itself fails. -/
theorem C3_close_invoked_exactly_once (r0 : ExecutionResult) (tEnd : Nat)
    (autoRun : ExecutionResult → ExecutionResult × Option Exc) (loc tb : String)
    (closeO : Option Exc) :
    (BaseAutomation.execute r0 tEnd none autoRun loc tb closeO).closeCalls = 1 ∧
    (BaseAutomation.execute r0 tEnd none autoRun loc tb closeO).initCalls = 1 := by
  unfold BaseAutomation.execute
  cases closeO <;> simp

/-- An `automation()` body that raises a plain error without touching the
result. -/
def c4AutoRun : ExecutionResult → ExecutionResult × Option Exc :=
  fun r => (r, some plainBoom)

/-- A `RuntimeError("close failed")` raised by `stagehand.close()`. -/
def closeBoom : Exc :=
  { mro := ["RuntimeError", "Exception"], msg := "close failed", shInfo := none,
    osInfo := none }

/-- Claim C4 (amended): when `automation()` raises and `stagehand.close()`
in the final step also raises, the release failure is not caught: the
`finally` block of `base_automation.py` does not guard the close call, so
`execute()` propagates the release failure and does not return the
`ExecutionResult` — the original error stays recorded only in the
instance's `execution_result` field (marked failed with the original
message and structured error info), which the caller never receives. -/
theorem C4_close_failure_propagates (r0 : ExecutionResult) (tEnd : Nat)
    (autoRun : ExecutionResult → ExecutionResult × Option Exc) (loc tb : String)
    (r1 : ExecutionResult) (e c : Exc)
    (hauto : autoRun r0 = (r1, some e)) :
    (BaseAutomation.execute r0 tEnd none autoRun loc tb (some c)).raised =
      some c ∧
    (BaseAutomation.execute r0 tEnd none autoRun loc tb (some c)).returned =
      none ∧
    (BaseAutomation.execute r0 tEnd none autoRun loc tb (some c)).result =
      { r1.set_error e loc tb with end_time := some tEnd } ∧
    (BaseAutomation.execute r0 tEnd none autoRun loc tb (some c)).result.success =
      false ∧
    (BaseAutomation.execute r0 tEnd none autoRun loc tb
      (some c)).result.error_message = some e.strOf := by
  unfold BaseAutomation.execute
  rw [hauto]
  simp [ExecutionResult.set_error]

/-- Witness for C4 at a concrete run: `automation()` raises a
`ValueError`, `close()` raises a `RuntimeError`; `execute` raises the
close error and returns nothing. -/
theorem C4_witness :
    (BaseAutomation.execute (ExecutionResult.mkFresh "t" 0) 7 none c4AutoRun
      "loc" "tb" (some closeBoom)).raised = some closeBoom ∧
    (BaseAutomation.execute (ExecutionResult.mkFresh "t" 0) 7 none c4AutoRun
      "loc" "tb" (some closeBoom)).returned = none :=
  ⟨(C4_close_failure_propagates (ExecutionResult.mkFresh "t" 0) 7 c4AutoRun
      "loc" "tb" (ExecutionResult.mkFresh "t" 0) plainBoom closeBoom rfl).1,
   (C4_close_failure_propagates (ExecutionResult.mkFresh "t" 0) 7 c4AutoRun
      "loc" "tb" (ExecutionResult.mkFresh "t" 0) plainBoom closeBoom rfl).2.1⟩

/-- Claim C4 as stated is false on the code: with `automation()` raising
the original `ValueError` and `close()` raising a `RuntimeError`,
`execute()` does not return the `ExecutionResult` recording the original
failure — it raises the release failure, masking the original error for
the caller. -/
theorem C4_counterexample :
    (BaseAutomation.execute (ExecutionResult.mkFresh "t" 0) 7 none c4AutoRun
      "loc" "tb" (some closeBoom)).returned = none ∧
    (BaseAutomation.execute (ExecutionResult.mkFresh "t" 0) 7 none c4AutoRun
      "loc" "tb" (some closeBoom)).raised = some closeBoom ∧
    (BaseAutomation.execute (ExecutionResult.mkFresh "t" 0) 7 none c4AutoRun
      "loc" "tb" (some closeBoom)).result.success = false := by
  decide

/-- The `success = false ↔ error_info ≠ none` invariant is preserved by
each public `ExecutionResult` operation. -/
lemma applyROp_invariant (op : ROp) (r : ExecutionResult)
    (h : r.success = false ↔ r.error_info ≠ none) :
    (applyROp r op).success = false ↔ (applyROp r op).error_info ≠ none := by
  cases op with
  | addDetail k v => simpa [applyROp, ExecutionResult.add_detail] using h
  | setError e loc tb => simp [applyROp, ExecutionResult.set_error]

lemma foldl_applyROp_invariant (ops : List ROp) :
    ∀ r : ExecutionResult, (r.success = false ↔ r.error_info ≠ none) →
      ((List.foldl applyROp r ops).success = false ↔
        (List.foldl applyROp r ops).error_info ≠ none) := by
  induction ops with
  | nil => intro r h; exact h
  | cons op rest ih =>
    intro r h
    simp only [List.foldl_cons]
    exact ih (applyROp r op) (applyROp_invariant op r h)

/-- Claim C5 (confirmed): a freshly constructed `ExecutionResult` has
`success = true` and `error_info = None`; `add_detail` changes neither
field; `set_error` is the only operation changing them and sets
`success = false` together with a non-`None` `error_info`; hence after any
sequence of public operations, `success = false` iff `error_info` is
present. -/
theorem C5_success_iff_error_info :
    (∀ (name : String) (start : Nat),
      (ExecutionResult.mkFresh name start).success = true ∧
      (ExecutionResult.mkFresh name start).error_info = none) ∧
    (∀ (r : ExecutionResult) (k : String) (v : CtxVal),
      (r.add_detail k v).success = r.success ∧
      (r.add_detail k v).error_info = r.error_info) ∧
    (∀ (r : ExecutionResult) (e : Exc) (loc tb : String),
      (r.set_error e loc tb).success = false ∧
      (r.set_error e loc tb).error_info =
        some (ErrorInfo.from_exception e loc tb)) ∧
    (∀ (name : String) (start : Nat) (ops : List ROp),
      ((List.foldl applyROp (ExecutionResult.mkFresh name start) ops).success =
          false ↔
        (List.foldl applyROp (ExecutionResult.mkFresh name start) ops).error_info ≠
          none)) := by
  refine ⟨?_, ?_, ?_, ?_⟩
  · intro name start; exact ⟨rfl, rfl⟩
  · intro r k v; exact ⟨rfl, rfl⟩
  · intro r e loc tb; exact ⟨rfl, rfl⟩
  · intro name start ops
    exact foldl_applyROp_invariant ops (ExecutionResult.mkFresh name start)
      (by simp [ExecutionResult.mkFresh])

/-- Claim C6 (confirmed): `NotificationManager.notify` never raises to its
caller (every per-channel exception is absorbed by the loop's `except`
clause); with no enabled channels it returns immediately without logging a
tally; with channels it attempts each in discovery order, a per-channel
exception does not affect the remaining channels, and it logs the
aggregate `succeeded/total`; in particular with channels
`[A(success), B(raises)]` it reports `1/2` succeeded. -/
theorem C6_notify_never_raises :
    (∀ sends : List SendRes, (NotificationManager.notify sends).raised = none) ∧
    (NotificationManager.notify []).skipped = true ∧
    (NotificationManager.notify []).aggregateLog = none ∧
    (∀ (s : SendRes) (rest : List SendRes),
      (NotificationManager.notify (s :: rest)).skipped = false) ∧
    (∀ (s : SendRes) (rest : List SendRes),
      (NotificationManager.notify (s :: rest)).aggregateLog =
        some (notifyLoop (s :: rest) 0, rest.length + 1)) ∧
    (∀ (e : Exc) (rest : List SendRes) (acc : Nat),
      notifyLoop (SendRes.exn e :: rest) acc = notifyLoop rest acc) ∧
    (∀ e : Exc,
      (NotificationManager.notify [SendRes.ret true, SendRes.exn e]).aggregateLog =
        some (1, 2)) := by
  refine ⟨?_, rfl, rfl, ?_, ?_, ?_, ?_⟩
  · intro sends
    unfold NotificationManager.notify
    split <;> rfl
  · intro s rest; rfl
  · intro s rest; rfl
  · intro e rest acc; rfl
  · intro e; rfl

/-- Claim C7 (amended): the process exits with code `0` when the selected
task's run is successful and with code `1` when the run reports failure or
raises; an unknown task name is a pre-execution fatal error — `argparse`
rejects it (listing the valid choices) before any execution — but the
resulting exit code is `2`, the `argparse` usage-error status, not `1`. -/
theorem C7_exit_codes :
    (∀ (registry : List (String × Nat)) (arg : String)
        (execOutcome : Nat → RunRes),
      (registry.map Prod.fst).contains arg = false →
      mainExitCode registry arg execOutcome = 2) ∧
    (∀ (registry : List (String × Nat)) (arg : String)
        (execOutcome : Nat → RunRes) (c : Nat),
      (registry.map Prod.fst).contains arg = true →
      dictGet registry arg = some c → execOutcome c = RunRes.ret true →
      mainExitCode registry arg execOutcome = 0) ∧
    (∀ (registry : List (String × Nat)) (arg : String)
        (execOutcome : Nat → RunRes) (c : Nat),
      (registry.map Prod.fst).contains arg = true →
      dictGet registry arg = some c → execOutcome c = RunRes.ret false →
      mainExitCode registry arg execOutcome = 1) ∧
    (∀ (registry : List (String × Nat)) (arg : String)
        (execOutcome : Nat → RunRes) (c : Nat) (e : Exc),
      (registry.map Prod.fst).contains arg = true →
      dictGet registry arg = some c → execOutcome c = RunRes.exn e →
      mainExitCode registry arg execOutcome = 1) := by
  refine ⟨?_, ?_, ?_, ?_⟩
  · intro registry arg execOutcome hmem
    unfold mainExitCode
    rw [hmem]
    simp
  · intro registry arg execOutcome c hmem hget hrun
    unfold mainExitCode
    rw [hmem, hget]
    simp [hrun]
  · intro registry arg execOutcome c hmem hget hrun
    unfold mainExitCode
    rw [hmem, hget]
    simp [hrun]
  · intro registry arg execOutcome c e hmem hget hrun
    unfold mainExitCode
    rw [hmem, hget]
    simp [hrun]

/-- Witness for C7 on the one-entry registry `{"example": 0}`: unknown
name exits 2; a successful run exits 0; a failed run exits 1; a raising
run exits 1. -/
theorem C7_witness :
    mainExitCode [("example", 0)] "bogus" (fun _ => RunRes.ret true) = 2 ∧
    mainExitCode [("example", 0)] "example" (fun _ => RunRes.ret true) = 0 ∧
    mainExitCode [("example", 0)] "example" (fun _ => RunRes.ret false) = 1 ∧
    mainExitCode [("example", 0)] "example" (fun _ => RunRes.exn plainBoom) = 1 :=
  ⟨C7_exit_codes.1 [("example", 0)] "bogus" (fun _ => RunRes.ret true)
     (by decide),
   C7_exit_codes.2.1 [("example", 0)] "example" (fun _ => RunRes.ret true) 0
     (by decide) (by decide) rfl,
   C7_exit_codes.2.2.1 [("example", 0)] "example" (fun _ => RunRes.ret false) 0
     (by decide) (by decide) rfl,
   C7_exit_codes.2.2.2 [("example", 0)] "example" (fun _ => RunRes.exn plainBoom)
     0 plainBoom (by decide) (by decide) rfl⟩

/-- Claim C7 as stated is false on the code for the unknown-name case:
with registry `{"example": 0}` and argument `"bogus"`, the process exits
with the `argparse` usage-error status `2`, not `1` (the
`choices=get_available_tasks()` check fires before `main`'s try block,
so `run_automation`'s `ValueError` path is never reached from the CLI). -/
theorem C7_counterexample :
    mainExitCode [("example", 0)] "bogus" (fun _ => RunRes.ret true) = 2 ∧
    ¬(mainExitCode [("example", 0)] "bogus" (fun _ => RunRes.ret true) = 1) := by
  decide

/-- Claim C10 (amended): registering a second implementation whose
declared identifier derives to the same registry key does not fail — there
is no duplicate check in `__init_subclass__`; the assignment
`cls._registry[task_name] = cls` silently overwrites, so the key maps to
the most recently registered constructor. Each name still maps to exactly
one constructor: key uniqueness is preserved by every registration. The
derivation matches the spec's example (`LoginTask` → `login_task`). -/
theorem C10_duplicate_registration_overwrites :
    (∀ (reg : List (String × Nat)) (clsName : String) (a b : Nat),
      dictGet (registerAutomation (registerAutomation reg clsName a) clsName b)
        (deriveTaskName clsName) = some b) ∧
    (∀ (reg : List (String × Nat)) (clsName : String) (c : Nat),
      (keysOf reg).Nodup → (keysOf (registerAutomation reg clsName c)).Nodup) ∧
    deriveTaskName "LoginTask" = "login_task" := by
  refine ⟨?_, ?_, by decide⟩
  · intro reg clsName a b
    exact dictGet_dictInsert _ _ _
  · intro reg clsName c h
    exact nodup_keysOf_dictInsert _ _ _ h

/-- Witness for C10: starting from the registry `{"example": 0}`,
re-registering `LoginTask` twice leaves the key bound to the latest class,
with keys still unique. -/
theorem C10_witness :
    dictGet (registerAutomation (registerAutomation [("example", 0)] "LoginTask" 1)
      "LoginTask" 2) (deriveTaskName "LoginTask") = some 2 ∧
    (keysOf (registerAutomation [("example", 0)] "LoginTask" 1)).Nodup :=
  ⟨C10_duplicate_registration_overwrites.1 [("example", 0)] "LoginTask" 1 2,
   C10_duplicate_registration_overwrites.2.1 [("example", 0)] "LoginTask" 1
     (by decide)⟩

/-- Claim C10 as stated is false on the code: defining two classes both
named `LoginTask` (deriving to the same key `"login_task"`) makes both
registrations succeed — no error is raised — and the second silently
replaces the first in the registry. -/
theorem C10_counterexample :
    registerAutomation (registerAutomation [] "LoginTask" 0) "LoginTask" 1 =
      [("login_task", 1)] := by
  decide
